import Mathlib

/-
Verification of the route-matching and dispatch engine of the ultimate-express
repository (src/src/router.js, src/src/application.js and the utility module
src/unnamed/part_000, which is the utils.js imported by router.js).

The JavaScript source is shallowly embedded:
  * the pattern compiler (patternToRegex / needsConversionToRegex) is embedded
    as the same string rewriting the source performs, producing a JavaScript
    regular-expression source string; the semantics of the host language's
    RegExp engine (construction, exec, test, replace with the empty string) is
    modelled once, by a small regex AST with a backtracking matcher supporting
    exactly the constructs that can occur in the strings the compiler emits
    (literals, escapes, character classes, groups - named, plain and
    non-capturing -, the lookahead (?=...), anchors, alternation and the
    quantifiers ? * + with lazy variants);
  * the router (route table construction, the generic dispatch walk
    _routeRequest, the optimizer #optimizeRoute and the flattened native
    handler of #registerUwsRoute) is embedded as pure state-passing functions
    over an explicit request/response state; terminal JavaScript callbacks are
    modelled by a finite description of their observable behaviour (what they
    invoke the continuation with, whether they write a response, whether the
    peer aborts during their asynchronous work), and every invocation is
    recorded in an event trace.
-/

namespace UX

abbrev Chars := List Char

/-! ## JavaScript RegExp semantics: AST, matcher, exec/test/replace -/

/-- One item of a character class: either a single character or a range. -/
inductive ClsIt where
  | one (c : Char)
  | rng (a b : Char)
deriving DecidableEq, Repr

/-- Abstract syntax of the JavaScript regular-expression fragment that
patternToRegex can emit (plus user-supplied constraint sub-patterns in the
same fragment).  The constructor fail represents a source string outside the
modelled fragment: it never matches; no pattern appearing in the theorems
below falls in that case. -/
inductive RE where
  | eps
  | fail
  | ch (c : Char)
  | cls (neg : Bool) (items : List ClsIt)
  | anyc
  | bol
  | eol
  | look (r : RE)
  | seq (a b : RE)
  | alt (a b : RE)
  | star (lazy : Bool) (a : RE)
  | plus (lazy : Bool) (a : RE)
  | opt (lazy : Bool) (a : RE)
  | group (name : Option String) (a : RE)
deriving DecidableEq, Repr

def clsItMatch (c : Char) : ClsIt → Bool
  | .one c1 => c = c1
  | .rng a b => a ≤ c && c ≤ b

def clsMatch (neg : Bool) (items : List ClsIt) (c : Char) : Bool :=
  let m := items.any (clsItMatch c)
  if neg then !m else m

/-- Backtracking matcher in continuation-passing style.  `full` is the whole
subject string, `pos` the current position, `b` the named-capture bindings
collected so far (newest first).  The fuel only bounds the nesting depth of
the recursion; reFuel below is always sufficient. -/
def reM (α : Type) (full : Chars) : Nat → RE → Nat → List (String × Chars) →
    (Nat → List (String × Chars) → Option α) → Option α
  | 0, _, _, _, _ => none
  | _ + 1, .eps, pos, b, k => k pos b
  | _ + 1, .fail, _, _, _ => none
  | _ + 1, .ch c, pos, b, k =>
    match (full.drop pos).head? with
    | some c1 => if c1 = c then k (pos + 1) b else none
    | none => none
  | _ + 1, .cls neg its, pos, b, k =>
    match (full.drop pos).head? with
    | some c1 => if clsMatch neg its c1 then k (pos + 1) b else none
    | none => none
  | _ + 1, .anyc, pos, b, k =>
    match (full.drop pos).head? with
    | some c1 => if c1 = '\n' then none else k (pos + 1) b
    | none => none
  | _ + 1, .bol, pos, b, k => if pos = 0 then k pos b else none
  | _ + 1, .eol, pos, b, k => if pos = full.length then k pos b else none
  | f + 1, .look r, pos, b, k =>
    match reM (List (String × Chars)) full f r pos b (fun _ b1 => some b1) with
    | some b1 => k pos b1
    | none => none
  | f + 1, .seq a a2, pos, b, k =>
    reM α full f a pos b (fun p1 b1 => reM α full f a2 p1 b1 k)
  | f + 1, .alt a a2, pos, b, k =>
    match reM α full f a pos b k with
    | some r => some r
    | none => reM α full f a2 pos b k
  | f + 1, .star lz a, pos, b, k =>
    if lz then
      match k pos b with
      | some r => some r
      | none =>
        reM α full f a pos b (fun p1 b1 =>
          if p1 = pos then none else reM α full f (.star lz a) p1 b1 k)
    else
      match reM α full f a pos b (fun p1 b1 =>
          if p1 = pos then none else reM α full f (.star lz a) p1 b1 k) with
      | some r => some r
      | none => k pos b
  | f + 1, .plus lz a, pos, b, k =>
    reM α full f a pos b (fun p1 b1 => reM α full f (.star lz a) p1 b1 k)
  | f + 1, .opt lz a, pos, b, k =>
    if lz then
      match k pos b with
      | some r => some r
      | none => reM α full f a pos b k
    else
      match reM α full f a pos b k with
      | some r => some r
      | none => k pos b
  | f + 1, .group name a, pos, b, k =>
    reM α full f a pos b (fun p1 b1 =>
      match name with
      | some n => k p1 ((n, (full.drop pos).take (p1 - pos)) :: b1)
      | none => k p1 b1)

def reSize : RE → Nat
  | .eps | .fail | .anyc | .bol | .eol => 1
  | .ch _ => 1
  | .cls _ _ => 1
  | .look a => reSize a + 1
  | .seq a b => reSize a + reSize b + 1
  | .alt a b => reSize a + reSize b + 1
  | .star _ a => reSize a + 1
  | .plus _ a => reSize a + 1
  | .opt _ a => reSize a + 1
  | .group _ a => reSize a + 1

/-- Fuel that over-approximates the maximal nesting depth of reM. -/
def reFuel (r : RE) (s : Chars) : Nat :=
  (reSize r + 2) * (s.length + 2) * 2

/-- Attempt a match of r at position pos of s; on success returns the end
position and the bindings. -/
def reExecAt (r : RE) (s : Chars) (pos : Nat) :
    Option (Nat × List (String × Chars)) :=
  reM (Nat × List (String × Chars)) s (reFuel r s) r pos [] (fun p b => some (p, b))

/-- JavaScript RegExp.exec for a non-global regex: try each start position in
order; returns (start, end, bindings). -/
def reScan (r : RE) (s : Chars) (pos : Nat) :
    Nat → Option (Nat × Nat × List (String × Chars))
  | 0 => none
  | n + 1 =>
    match reExecAt r s pos with
    | some (e, b) => some (pos, e, b)
    | none => reScan r s (pos + 1) n

def reExec (r : RE) (s : Chars) : Option (Nat × Nat × List (String × Chars)) :=
  reScan r s 0 (s.length + 1)

/-- JavaScript RegExp.test. -/
def reTest (r : RE) (s : String) : Bool :=
  (reExec r s.toList).isSome

/-- JavaScript String.replace(regex, '') for a non-global regex: remove the
first match. -/
def reReplaceEmpty (r : RE) (s : String) : String :=
  match reExec r s.toList with
  | some (st, en, _) => String.mk (s.toList.take st ++ s.toList.drop en)
  | none => s

/-- Names of the named capture groups of a regex, in declaration order (the
iteration order of the JavaScript groups object). -/
def reNames : RE → List String
  | .look a => reNames a
  | .seq a b => reNames a ++ reNames b
  | .alt a b => reNames a ++ reNames b
  | .star _ a => reNames a
  | .plus _ a => reNames a
  | .opt _ a => reNames a
  | .group (some n) a => n :: reNames a
  | .group none a => reNames a
  | _ => []

/-- The groups object of a successful match: every declared name is a key;
groups that did not participate have value undefined (none). -/
def groupsOf (r : RE) (binds : List (String × Chars)) :
    List (String × Option String) :=
  (reNames r).map (fun n =>
    (n, (binds.find? (fun p => p.1 = n)).map (fun p => String.mk p.2)))

/-! ## Parsing JavaScript regex source strings into the AST -/

def isWordChar (c : Char) : Bool := c = '_' || c.isAlpha || c.isDigit

def takeWord : Chars → Chars × Chars
  | [] => ([], [])
  | c :: rest =>
    if isWordChar c then
      let (w, r) := takeWord rest
      (c :: w, r)
    else ([], c :: rest)

def wordItems : List ClsIt :=
  [.rng 'a' 'z', .rng 'A' 'Z', .rng '0' '9', .one '_']

def spaceItems : List ClsIt :=
  [.one ' ', .one '\t', .one '\n', .one '\r', .one '\x0b', .one '\x0c']

/-- Meaning of an escape sequence outside a character class. -/
def escRE (c : Char) : RE :=
  if c = 'd' then .cls false [.rng '0' '9']
  else if c = 'D' then .cls true [.rng '0' '9']
  else if c = 'w' then .cls false wordItems
  else if c = 'W' then .cls true wordItems
  else if c = 's' then .cls false spaceItems
  else if c = 'S' then .cls true spaceItems
  else if c = 'b' || c = 'B' then .fail
  else .ch c

/-- Meaning of an escape sequence inside a character class. -/
def escClsItems (c : Char) : List ClsIt :=
  if c = 'd' then [.rng '0' '9']
  else if c = 'w' then wordItems
  else if c = 's' then spaceItems
  else [.one c]

def pClsItemsF : Nat → Chars → List ClsIt → Option (List ClsIt × Chars)
  | 0, _, _ => none
  | _ + 1, ']' :: rest, acc => some (acc.reverse, rest)
  | f + 1, '\\' :: c :: rest, acc => pClsItemsF f rest ((escClsItems c).reverse ++ acc)
  | _ + 1, a :: '-' :: ']' :: rest, acc => some ((.one '-' :: .one a :: acc).reverse, rest)
  | f + 1, a :: '-' :: '\\' :: b :: rest, acc =>
    -- a range whose upper end is an escaped literal character
    pClsItemsF f rest (.rng a b :: acc)
  | f + 1, a :: '-' :: b :: rest, acc => pClsItemsF f rest (.rng a b :: acc)
  | f + 1, a :: rest, acc => pClsItemsF f rest (.one a :: acc)
  | _ + 1, [], _ => none

def pClsItems (cs : Chars) (acc : List ClsIt) : Option (List ClsIt × Chars) :=
  pClsItemsF (cs.length + 1) cs acc

def pCls : Chars → Option (RE × Chars)
  | '^' :: rest => (pClsItems rest []).map (fun p => (.cls true p.1, p.2))
  | cs => (pClsItems cs []).map (fun p => (.cls false p.1, p.2))

/-- Postfix quantifiers ? * + with optional lazy marker. -/
def pQuant (a : RE) : Chars → RE × Chars
  | '*' :: '?' :: rest => (.star true a, rest)
  | '*' :: rest => (.star false a, rest)
  | '+' :: '?' :: rest => (.plus true a, rest)
  | '+' :: rest => (.plus false a, rest)
  | '?' :: '?' :: rest => (.opt true a, rest)
  | '?' :: rest => (.opt false a, rest)
  | cs => (a, cs)

mutual

def pAlt : Nat → Chars → Option (RE × Chars)
  | 0, _ => none
  | f + 1, cs =>
    match pSeq f cs with
    | some (a, rest) =>
      match rest with
      | '|' :: rest2 =>
        match pAlt f rest2 with
        | some (b, rest3) => some (.alt a b, rest3)
        | none => none
      | _ => some (a, rest)
    | none => none

def pSeq : Nat → Chars → Option (RE × Chars)
  | 0, _ => none
  | f + 1, cs =>
    match cs with
    | [] => some (.eps, [])
    | ')' :: _ => some (.eps, cs)
    | '|' :: _ => some (.eps, cs)
    | _ =>
      match pTerm f cs with
      | some (a, rest) =>
        match pSeq f rest with
        | some (b, rest2) => some (.seq a b, rest2)
        | none => none
      | none => none

def pTerm : Nat → Chars → Option (RE × Chars)
  | 0, _ => none
  | f + 1, cs =>
    match pAtom f cs with
    | some (a, rest) => some (pQuant a rest)
    | none => none

def pAtom : Nat → Chars → Option (RE × Chars)
  | 0, _ => none
  | f + 1, cs =>
    match cs with
    | '(' :: '?' :: '<' :: rest =>
      let (nm, rest2) := takeWord rest
      match rest2 with
      | '>' :: rest3 =>
        match pAlt f rest3 with
        | some (a, ')' :: rest4) => some (.group (some (String.mk nm)) a, rest4)
        | _ => none
      | _ => none
    | '(' :: '?' :: '=' :: rest =>
      match pAlt f rest with
      | some (a, ')' :: rest2) => some (.look a, rest2)
      | _ => none
    | '(' :: '?' :: ':' :: rest =>
      match pAlt f rest with
      | some (a, ')' :: rest2) => some (a, rest2)
      | _ => none
    | '(' :: rest =>
      match pAlt f rest with
      | some (a, ')' :: rest2) => some (.group none a, rest2)
      | _ => none
    | '[' :: rest => pCls rest
    | '\\' :: c :: rest => some (escRE c, rest)
    | '^' :: rest => some (.bol, rest)
    | '$' :: rest => some (.eol, rest)
    | '.' :: rest => some (.anyc, rest)
    | c :: rest =>
      if c = ')' || c = '|' || c = '*' || c = '+' || c = '?' ||
         c = ']' || c = '\\' || c = '(' || c = '[' then none
      else some (.ch c, rest)
    | [] => none

end

/-- Parse a JavaScript regex source string.  Strings outside the modelled
fragment become the never-matching RE.fail (the JavaScript engine would
either reject them at RegExp construction time or use features we do not
need for any pattern occurring in the theorems below). -/
def jsRegexOfSrc (src : String) : RE :=
  match pAlt ((src.length + 2) * 4) src.toList with
  | some (r, []) => r
  | _ => .fail

/-! ## The pattern compiler (patternToRegex, needsConversionToRegex)
from src/unnamed/part_000 (utils.js) -/

/-- A path argument as passed to route registration: either a template string
or a pre-built RegExp object. -/
inductive PathArg where
  | str (s : String)
  | re (r : RE)
deriving DecidableEq, Repr

/-- replaceAll('.', '\\.') -/
def rwDot : Chars → Chars
  | [] => []
  | '.' :: r => '\\' :: '.' :: rwDot r
  | c :: r => c :: rwDot r

/-- replaceAll('-', '\\-') -/
def rwDash : Chars → Chars
  | [] => []
  | '-' :: r => '\\' :: '-' :: rwDash r
  | c :: r => c :: rwDash r

/-- replaceAll('*', '(.*)') -/
def rwStar : Chars → Chars
  | [] => []
  | '*' :: r => '(' :: '.' :: '*' :: ')' :: rwStar r
  | c :: r => c :: rwStar r

/-- Split at the first ')' of the list: (characters before it, rest after). -/
def splitAtFirstRP : Chars → Option (Chars × Chars)
  | [] => none
  | ')' :: rest => some ([], rest)
  | c :: rest =>
    match splitAtFirstRP rest with
    | some (a, b) => some (c :: a, b)
    | none => none

/-- The optional inline-constraint part of the source's meta-pattern
:(\w+)(\(.+?\))? : a parenthesised sub-pattern of at least one character,
taken lazily up to the first ')'. -/
def takeConstraint : Chars → Option Chars × Chars
  | '(' :: c :: rest =>
    if c = ')' then (none, '(' :: c :: rest)
    else
      match splitAtFirstRP (c :: rest) with
      | some (inner, rest2) => (some ('(' :: (inner ++ [')'])), rest2)
      | none => (none, '(' :: c :: rest)
  | cs => (none, cs)

/-- The global replace of /:(\w+)(\(.+?\))?/ by the named-capture group
(?<name>[^/]+) (default) or (?<name>constraint($|\/)) (inline constraint).
The fuel is an upper bound on the number of scanning steps; each step consumes
at least one input character, so an initial fuel of the input length is always
sufficient and the fuel-exhausted case is unreachable. -/
def rwParamF : Nat → Chars → Chars
  | 0, cs => cs
  | _ + 1, [] => []
  | f + 1, ':' :: rest =>
    match takeWord rest with
    | ([], _) => ':' :: rwParamF f rest
    | (nm, rest2) =>
      match takeConstraint rest2 with
      | (some constr, rest3) =>
        ('(' :: '?' :: '<' :: nm) ++ ('>' :: constr) ++
          ('(' :: '$' :: '|' :: '\\' :: '/' :: ')' :: ')' :: rwParamF f rest3)
      | (none, rest3) =>
        ('(' :: '?' :: '<' :: nm) ++
          ('>' :: '[' :: '^' :: '/' :: ']' :: '+' :: ')' :: rwParamF f rest3)
  | f + 1, c :: rest => c :: rwParamF f rest

def rwParam (cs : Chars) : Chars := rwParamF (cs.length + 1) cs

/-- The regex source string patternToRegex builds (before RegExp
construction).  For a prefix match of the empty template the source returns
the constant EMPTY_REGEX, whose source string is empty. -/
def patternToRegexSrc (pattern : String) (prefixMode : Bool) : String :=
  if prefixMode && pattern = "" then ""
  else
    String.mk ('^' :: rwParam (rwStar (rwDash (rwDot pattern.toList))) ++
      (if prefixMode then ['(', '?', '=', '$', '|', '\\', '/', ')'] else ['$']))

def patternToRegexRE (pattern : String) (prefixMode : Bool) : RE :=
  jsRegexOfSrc (patternToRegexSrc pattern prefixMode)

/-- patternToRegex on a path argument: a pre-built RegExp is returned
unchanged. -/
def patternToRegexP : PathArg → Bool → RE
  | .re r, _ => r
  | .str s, prefixMode => patternToRegexRE s prefixMode

/-- needsConversionToRegex from utils.js: false for RegExp objects and for
the literal string '/*'; otherwise true exactly when one of the ten
special characters occurs. -/
def needsConversionToRegex : PathArg → Bool
  | .re _ => false
  | .str p =>
    if p = "/*" then false
    else
      p.toList.contains '*' || p.toList.contains '?' ||
      p.toList.contains '+' || p.toList.contains '(' ||
      p.toList.contains ')' || p.toList.contains ':' ||
      p.toList.contains '\x7b' || p.toList.contains '\x7d' ||
      p.toList.contains '[' || p.toList.contains ']'

/-- extractParams from router.js: match?.groups ?? an empty object. -/
def extractParams (r : RE) (path : String) : List (String × Option String) :=
  match reExec r path.toList with
  | some (_, _, b) => groupsOf r b
  | none => []

/-! ## The router data model (src/src/router.js) -/

/-- Observable behaviour of a terminal JavaScript callback: what it does with
its continuation (next), or that it throws. -/
inductive HAct where
  | callNext
  | callRoute
  | callErr (e : String)
  | noCall
  | throwE (e : String)
deriving DecidableEq, Repr

/-- A JavaScript function value as used for handlers: its identity, its
declared arity (fn.length, used by use() to recognise error middleware), and
its observable behaviour.  send models writing a response (sets headersSent);
abort models the peer closing the connection during the handler's
asynchronous work.  ehSend / ehCallsNext describe its behaviour when invoked
as an error handler (it is assumed to write, if at all, before invoking its
continuation). -/
structure JsFn where
  id : Nat
  arity : Nat
  send : Bool
  abort : Bool
  act : HAct
  ehSend : Bool
  ehCallsNext : Bool
deriving DecidableEq, Repr

/-- The pattern field of a route entry: the unconverted literal string
(fast-path string equality) or a compiled/pre-built RegExp. -/
inductive Pattern where
  | str (s : String)
  | re (r : RE)
deriving DecidableEq, Repr

/-- Events observable during a dispatch: a terminal handler invocation (with
the active relative path and the extracted params it sees), a param-hook
invocation, an error-handler invocation, and the generic 500 failure page. -/
inductive Ev where
  | call (id : Nat) (opPath : String) (params : List (String × Option String))
  | paramHook (hookId : Nat) (name : String) (value : Option String)
  | errCall (id : Nat) (err : String)
  | send500 (err : String)
deriving DecidableEq, Repr

/-- Request-scoped state (the fields of the Request object that router.js
reads and writes): full path, query, active relative path (_opPath), the
mount-path stack (_stack), the set of already-processed param names
(_gotParams), the extracted params and the key of the route last assigned to
req.route. -/
structure Req where
  method : String
  path : String
  urlQuery : String
  opPath : String
  url : String
  stack : List String
  gotParams : List String
  params : List (String × Option String)
  route : Option Nat
deriving DecidableEq, Repr

structure Res where
  aborted : Bool
  headersSent : Bool
deriving DecidableEq, Repr

mutual
/-- One route entry as built by #createRoute. -/
inductive RouteEntry : Type where
  | mk : (method : String) → (path : PathArg) → (pattern : Pattern) →
      (callback : CallbackV) → (routeSkipKey : Nat) → (routeKey : Nat) →
      (useFlag : Bool) → (allFlag : Bool) → RouteEntry
/-- A route entry's callback: a terminal function or a mounted sub-router. -/
inductive CallbackV : Type where
  | fn : JsFn → CallbackV
  | sub : RouterObj → CallbackV
/-- A Router instance: its route table, its param-hook registry (name to
ordered hook ids), its single error handler, and the resolved value of the
parent-delegating 'case sensitive routing' setting lookup as seen at dispatch
time. -/
inductive RouterObj : Type where
  | mk : (routes : List RouteEntry) → (paramHooks : List (String × List Nat)) →
      (errorRoute : Option JsFn) → (caseSensitive : Bool) → RouterObj
end

def RouteEntry.method : RouteEntry → String
  | .mk m _ _ _ _ _ _ _ => m
def RouteEntry.path : RouteEntry → PathArg
  | .mk _ p _ _ _ _ _ _ => p
def RouteEntry.pattern : RouteEntry → Pattern
  | .mk _ _ p _ _ _ _ _ => p
def RouteEntry.callback : RouteEntry → CallbackV
  | .mk _ _ _ c _ _ _ _ => c
def RouteEntry.routeSkipKey : RouteEntry → Nat
  | .mk _ _ _ _ k _ _ _ => k
def RouteEntry.routeKey : RouteEntry → Nat
  | .mk _ _ _ _ _ k _ _ => k
def RouteEntry.useFlag : RouteEntry → Bool
  | .mk _ _ _ _ _ _ u _ => u
def RouteEntry.allFlag : RouteEntry → Bool
  | .mk _ _ _ _ _ _ _ a => a

def RouterObj.routes : RouterObj → List RouteEntry
  | .mk r _ _ _ => r
def RouterObj.paramHooks : RouterObj → List (String × List Nat)
  | .mk _ h _ _ => h
def RouterObj.errorRoute : RouterObj → Option JsFn
  | .mk _ _ e _ => e
def RouterObj.caseSensitive : RouterObj → Bool
  | .mk _ _ _ c => c

def RouterObj.withRoutesAppended (ro : RouterObj) (es : List RouteEntry) : RouterObj :=
  .mk (ro.routes ++ es) ro.paramHooks ro.errorRoute ro.caseSensitive

def RouterObj.withError (ro : RouterObj) (f : JsFn) : RouterObj :=
  .mk ro.routes ro.paramHooks (some f) ro.caseSensitive

def defFn : JsFn :=
  { id := 0, arity := 3, send := false, abort := false, act := .noCall,
    ehSend := false, ehCallsNext := false }

/-- Placeholder for out-of-bounds list reads (never reached under the length
guards mirrored from the source). -/
def defEntry : RouteEntry :=
  .mk "GET" (.str "") (.str "") (.fn defFn) 0 0 false false

/-- The string a path argument contributes when used where JavaScript needs a
string.  RegExp mount paths would stringify to their /source/ form; no claim
involves one, so they contribute the empty string here. -/
def pathStrOf : PathArg → String
  | .str s => s
  | .re _ => ""

/-! ## Route registration (#createRoute, use, param) -/

/-- The per-path normalisation at the top of #createRoute's inner loop:
without strict routing a trailing slash (except on "/" itself) is dropped,
and a bare "*" becomes "/*". -/
def normalizeOnePath (strict : Bool) (p : PathArg) : PathArg :=
  let p1 : PathArg :=
    match p with
    | .str s =>
      if !strict && s.toList.getLast? == some '/' && s != "/" then .str (String.mk s.toList.dropLast)
      else .str s
    | x => x
  match p1 with
  | .str s => if s = "*" then .str "/*" else .str s
  | x => x

/-- Construction of one route entry (the object literal inside #createRoute).
Method names are passed already upper-cased, as the source upper-cases them
at every call site. -/
def mkRoute (method : String) (p : PathArg) (cb : CallbackV)
    (skipKey key : Nat) : RouteEntry :=
  .mk (if method = "USE" then "ALL" else method)
    p
    (if method = "USE" || needsConversionToRegex p then
       .re (patternToRegexP p (method = "USE"))
     else match p with
       | .str s => .str s
       | .re r => .re r)
    cb skipKey key (method = "USE") (method = "ALL" || method = "USE")

def crPaths (method : String) (skipKey : Nat) (cb : CallbackV) (strict : Bool) :
    List PathArg → Nat → List RouteEntry
  | [], _ => []
  | p :: ps, key =>
    mkRoute method (normalizeOnePath strict p) cb skipKey key ::
      crPaths method skipKey cb strict ps (key + 1)

def crCbs (method : String) (paths : List PathArg) (skipKey : Nat)
    (strict : Bool) : List CallbackV → Nat → List RouteEntry
  | [], _ => []
  | c :: cs, key =>
    crPaths method skipKey c strict paths key ++
      crCbs method paths skipKey strict cs (key + paths.length)

/-- #createRoute: callbacks are taken already flattened (the source's
callbacks.flat()).  routeSkipKey is computed once, before any entry is
created, as the global counter plus the number of callbacks minus one; the
counter then increments per created entry (per callback and per path). -/
def createRoute (method : String) (paths : List PathArg) (cbs : List CallbackV)
    (strict : Bool) (startKey : Nat) : List RouteEntry :=
  crCbs method paths (startKey + cbs.length - 1) strict cbs startKey

def addHook (hs : List (String × List Nat)) (name : String) (hid : Nat) :
    List (String × List Nat) :=
  match hs with
  | [] => [(name, [hid])]
  | (n, l) :: rest =>
    if n = name then (n, l ++ [hid]) :: rest else (n, l) :: addHook rest name hid

/-- param(name, fn): appends the hook to the ordered list of every given
name. -/
def paramReg (ro : RouterObj) (names : List String) (hid : Nat) : RouterObj :=
  .mk ro.routes (names.foldl (fun hs n => addHook hs n hid) ro.paramHooks)
    ro.errorRoute ro.caseSensitive

/-- The first argument of use(): a path or already a handler/router. -/
inductive UseFirst where
  | pathArg (p : PathArg)
  | cbArg (c : CallbackV)

/-- use(path, ...callbacks): a single function of arity 4 becomes the
router's error handler; otherwise a leading function/router argument is
shifted into the callback list with the empty path, a path of "/" becomes the
empty path, and the callbacks are registered as USE routes.  (The mountpath /
parent assignment on mounted routers only feeds the settings delegation,
whose resolved result is the caseSensitive field.) -/
def useReg (ro : RouterObj) (first : UseFirst) (rest : List CallbackV)
    (strict : Bool) (startKey : Nat) : RouterObj × Nat :=
  match first with
  | .cbArg c =>
    match c, rest with
    | .fn f, [] =>
      if f.arity = 4 then (ro.withError f, startKey)
      else
        (ro.withRoutesAppended (createRoute "USE" [.str ""] [.fn f] strict startKey),
         startKey + 1)
    | _, _ =>
      (ro.withRoutesAppended (createRoute "USE" [.str ""] (c :: rest) strict startKey),
       startKey + (c :: rest).length)
  | .pathArg p =>
    let p1 := if p = .str "/" then .str "" else p
    (ro.withRoutesAppended (createRoute "USE" [p1] rest strict startKey),
     startKey + rest.length)

/-! ## Dispatch: path matching, preprocessing, the generic walk -/

def lowerStr (s : String) : String := String.mk (s.toList.map Char.toLower)

/-- #pathMatches: string patterns by equality (after the '' to '/' adjustment
and optional case folding; '/*' matches everything), RegExp patterns by
test against the unadjusted active relative path. -/
def pathMatches (ro : RouterObj) (route : RouteEntry) (req : Req) : Bool :=
  match route.pattern with
  | .str pat =>
    let path := if req.opPath = "" then "/" else req.opPath
    let path2 := if ro.caseSensitive then path else lowerStr path
    let pat2 := if ro.caseSensitive then pat else lowerStr pat
    path2 == pat2 || pat2 == "/*"
  | .re r => reTest r req.opPath

def joinAll (l : List String) : String := String.join l

/-- #getFullMountpath: the prefix regex compiled from the concatenated mount
stack (the source memoises it per stack string; the cache is semantically
transparent and not modelled). -/
def getFullMountpath (stackJoined : String) : RE :=
  patternToRegexRE stackJoined true

/-- req.path.replace(fullMountpath, ''). -/
def stripMount (stackJoined : String) (path : String) : String :=
  reReplaceEmpty (getFullMountpath stackJoined) path

def hooksFor (hs : List (String × List Nat)) (n : String) : Option (List Nat) :=
  (hs.find? (fun p => p.1 = n)).map (fun p => p.2)

/-- The for..in loop over req.params in #preprocessRequest: for each param
name with registered hooks that is not yet in _gotParams, mark it and run all
its hooks in order (each awaited before the next). -/
def runHooks (hs : List (String × List Nat)) :
    List (String × Option String) → List String → List String × List Ev
  | [], got => (got, [])
  | (n, v) :: ps, got =>
    match hooksFor hs n with
    | some hooks =>
      if got.contains n then runHooks hs ps got
      else
        let rec2 := runHooks hs ps (got ++ [n])
        (rec2.1, hooks.map (fun h => Ev.paramHook h n v) ++ rec2.2)
    | none => runHooks hs ps got

/-- #preprocessRequest: params are extracted (and hooks run) only when the
route's original path is a string containing ':' and its pattern is a RegExp;
otherwise req.params is set to the empty object. -/
def preprocess (ro : RouterObj) (req : Req) (route : RouteEntry) :
    Req × List Ev :=
  let req0 := { req with route := some route.routeKey }
  match route.path, route.pattern with
  | .str s, .re r =>
    if s.toList.contains ':' then
      let path := if req0.stack.isEmpty then req0.path
                  else stripMount (joinAll req0.stack) req0.path
      let params := extractParams r path
      let hk := runHooks ro.paramHooks params req0.gotParams
      ({ req0 with params := params, gotParams := hk.1 }, hk.2)
    else ({ req0 with params := [] }, [])
  | _, _ => ({ req0 with params := [] }, [])

/-- The while loop inside next('route'): advance from the current index until
the entry whose routeKey equals the captured routeSkipKey.  Returns none when
the scan runs past the end of the table, where the source reads
routes[i].routeKey of undefined and throws a TypeError. -/
def scanSkipF (routes : List RouteEntry) (key : Nat) : Nat → Nat → Option Nat
  | _, 0 => none
  | i, n + 1 =>
    if i < routes.length then
      if (routes.getD i defEntry).routeKey = key then some i
      else scanSkipF routes key (i + 1) n
    else none

def scanSkip (routes : List RouteEntry) (key : Nat) (i : Nat) : Option Nat :=
  scanSkipF routes key i (routes.length + 1 - i)

/-- The catch block of _routeRequest: the nearest (current) router's single
error handler if registered, otherwise log and send the generic 500 page.
calledNext records whether the throwing handler had already invoked next
(true for next(err), false for a plain throw); with no error handler the
source then resolves the promise only in the !calledNext case. -/
def genericError (ro : RouterObj) (e : String) (calledNext : Bool) (req : Req)
    (res : Res) (evs : List Ev) : Option Bool × Req × Res × List Ev :=
  match ro.errorRoute with
  | some eh =>
    let res1 := if eh.ehSend then { res with headersSent := true } else res
    let out := if eh.ehCallsNext then some res1.headersSent else some true
    (out, req, res1, evs ++ [Ev.errCall eh.id e])
  | none =>
    let res1 := { res with headersSent := true }
    let evs1 := evs ++ [Ev.send500 e]
    if calledNext then (none, req, res1, evs1) else (some true, req, res1, evs1)

/-- The generic walk _routeRequest, starting at table index i.  The result is
(promise outcome, request, response, event trace); the outcome is the value
of the FIRST resolve call of the source's promise executor (later resolves
are no-ops); none means the promise is never resolved (the walk still
stops).  In the sub-router branch calledNext stays false, so when a matched
mount entry's sub-walk declines, the trailing if(!calledNext) resolve(true)
settles the promise true at that moment even though dontStop makes the loop
continue: the walk proceeds at i + 1 (events and state changes still happen)
but the outcome is already fixed to handled.  Fuel bounds the number of
dispatch steps; it only decreases on recursion and any value at least the
total number of entries reachable from the router is sufficient. -/
def walkFrom : Nat → RouterObj → Req → Res → Nat →
    Option Bool × Req × Res × List Ev
  | 0, _, req, res, _ => (none, req, res, [])
  | f + 1, ro, req, res, i =>
    if i < ro.routes.length then
      if res.aborted then (some false, req, res, [])
      else
        let route := ro.routes.getD i defEntry
        if (route.allFlag || route.method == req.method) && pathMatches ro route req then
          let pre := preprocess ro req route
          let req1 := pre.1
          let evs0 := pre.2
          match route.callback with
          | .sub subRo =>
            let stack2 := req1.stack ++ [pathStrOf route.path]
            let op2 := stripMount (joinAll stack2) req1.path
            let req2 := { req1 with
                          stack := stack2, opPath := op2, url := op2 ++ req1.urlQuery }
            match walkFrom f subRo req2 res 0 with
            | (some true, req3, res3, evs1) => (some true, req3, res3, evs0 ++ evs1)
            | (some false, req3, res3, evs1) =>
              let stack4 := req3.stack.dropLast
              let op4 := if stack4.isEmpty then req3.path
                         else stripMount (joinAll stack4) req3.path
              let req4 := { req3 with
                            stack := stack4, opPath := op4, url := op4 ++ req3.urlQuery }
              let r2 := walkFrom f ro req4 res3 (i + 1)
              (some true, r2.2.1, r2.2.2.1, evs0 ++ evs1 ++ r2.2.2.2)
            | (none, req3, res3, evs1) => (none, req3, res3, evs0 ++ evs1)
          | .fn fn =>
            let evCall := Ev.call fn.id req1.opPath req1.params
            let res1 : Res :=
              { aborted := res.aborted || fn.abort, headersSent := res.headersSent || fn.send }
            match fn.act with
            | .noCall => (some true, req1, res1, evs0 ++ [evCall])
            | .callNext =>
              let r2 := walkFrom f ro req1 res1 (i + 1)
              (r2.1, r2.2.1, r2.2.2.1, evs0 ++ evCall :: r2.2.2.2)
            | .callRoute =>
              match scanSkip ro.routes route.routeSkipKey i with
              | some j =>
                let r2 := walkFrom f ro req1 res1 (j + 1)
                (r2.1, r2.2.1, r2.2.2.1, evs0 ++ evCall :: r2.2.2.2)
              | none => genericError ro "TypeError" true req1 res1 (evs0 ++ [evCall])
            | .callErr e => genericError ro e true req1 res1 (evs0 ++ [evCall])
            | .throwE e => genericError ro e false req1 res1 (evs0 ++ [evCall])
        else
          walkFrom f ro req res (i + 1)
    else (some false, req, res, [])

/-! ## The optimizer (#optimizeRoute) and the flattened native handler
(#registerUwsRoute) -/

/-- The pattern test inside #optimizeRoute, against the newly registered
route's literal path (strict equality between a string pattern and a RegExp
path is always false in JavaScript). -/
def optRouteMatch (pat : Pattern) (routePath : PathArg) : Bool :=
  match pat with
  | .re r => reTest r (pathStrOf routePath)
  | .str s =>
    (match routePath with
     | .str p => s == p
     | .re _ => false) || s == "*" || s == "/*"

/-- The scanning loop of #optimizeRoute: walk the given table while the
entry's routeKey does not exceed the current route argument's, skipping
method mismatches, descending (with the mount entry as the new route
argument) into sub-routers, and accumulating matching terminal entries.  The
final push of the new route itself happens only at the outermost level (empty
stack) and is done by optimizedChain. -/
def optScan : Nat → RouteEntry → List RouteEntry → List RouteEntry →
    List RouteEntry
  | 0, _, _, acc => acc
  | _ + 1, _, [], acc => acc
  | f + 1, route, r :: rest, acc =>
    if route.routeKey < r.routeKey then acc
    else if !r.allFlag && r.method != route.method then optScan f route rest acc
    else if optRouteMatch r.pattern route.path then
      match r.callback with
      | .sub subRo => optScan f route rest (optScan f r subRo.routes acc)
      | .fn _ => optScan f route rest (acc ++ [r])
    else optScan f route rest acc

mutual
def sizeEntry : RouteEntry → Nat
  | .mk _ _ _ c _ _ _ _ => sizeCb c + 1
def sizeCb : CallbackV → Nat
  | .fn _ => 1
  | .sub r => sizeRouter r + 1
def sizeRouter : RouterObj → Nat
  | .mk rs _ _ _ => sizeEntries rs + 1
def sizeEntries : List RouteEntry → Nat
  | [] => 1
  | e :: es => sizeEntry e + sizeEntries es + 1
end

/-- The flattened chain #optimizeRoute hands to #registerUwsRoute for a newly
registered literal route: all applicable earlier handlers in scan order, then
the new route itself.  The fuel over-approximates the number of scanning
steps, each of which either moves along a list or descends into a strictly
smaller sub-router. -/
def optimizedChain (route : RouteEntry) (tableBefore : List RouteEntry) :
    List RouteEntry :=
  optScan (sizeEntries tableBefore + 2) route tableBefore [] ++ [route]

/-- The methods uWS supports natively (the list in #createRoute). -/
def natives : List String :=
  ["GET", "POST", "PUT", "DELETE", "PATCH", "OPTIONS", "HEAD", "CONNECT", "TRACE"]

/-- The condition under which #createRoute hands a new route to
#optimizeRoute: string pattern other than '/*', root router (no parent),
case-sensitive routing enabled, natively supported method. -/
def optTrigger (isRoot caseSensitive : Bool) (method : String)
    (route : RouteEntry) : Bool :=
  (match route.pattern with
   | .str s => s != "/*"
   | .re _ => false) && isRoot && caseSensitive && natives.contains method

/-- The while loop inside the native handler's next('route'): i was already
incremented past the calling entry; advance while the previous entry exists,
its routeKey differs from the captured skip key, and i is in range. -/
def optSkipScanF (chain : List RouteEntry) (key : Nat) : Nat → Nat → Nat
  | i, 0 => i
  | i, n + 1 =>
    if i < chain.length then
      if (chain.getD (i - 1) defEntry).routeKey = key then i
      else optSkipScanF chain key (i + 1) n
    else i

def optSkipScan (chain : List RouteEntry) (key : Nat) (i : Nat) : Nat :=
  optSkipScanF chain key i (chain.length + 1 - i)

/-- Execution of the flattened chain from index i by the native handler's
recursive next protocol.  Returns the response state, the trace, and the
error thrown into the surrounding try, if any.  A Router instance in the
chain would be invoked as a function and throw a TypeError. -/
def optRun : Nat → List RouteEntry → Req → Res → Nat →
    Res × List Ev × Option String
  | 0, _, _, res, _ => (res, [], none)
  | f + 1, chain, req, res, i =>
    let e := chain.getD i defEntry
    match e.callback with
    | .sub _ => (res, [], some "TypeError")
    | .fn fn =>
      let ev := Ev.call fn.id req.opPath req.params
      let res1 : Res :=
        { aborted := res.aborted || fn.abort, headersSent := res.headersSent || fn.send }
      match fn.act with
      | .noCall => (res1, [ev], none)
      | .callNext =>
        if i + 1 ≥ chain.length then (res1, [ev], none)
        else
          let r2 := optRun f chain req res1 (i + 1)
          (r2.1, ev :: r2.2.1, r2.2.2)
      | .callRoute =>
        let j := optSkipScan chain e.routeSkipKey (i + 1)
        if j ≥ chain.length then (res1, [ev], none)
        else
          let r2 := optRun f chain req res1 j
          (r2.1, ev :: r2.2.1, r2.2.2)
      | .callErr err => (res1, [ev], some err)
      | .throwE err => (res1, [ev], some err)

/-- The native handler registered by #registerUwsRoute for an optimized
literal route: preprocess once with the new route, run the flattened chain,
and on a thrown error invoke the root router's error handler with a
continuation that sends the 500 page if nothing was sent, or send the 500
page directly if there is no error handler. -/
def runOptimized (root : RouterObj) (chain : List RouteEntry)
    (route : RouteEntry) (req : Req) (res : Res) : Req × Res × List Ev :=
  let pre := preprocess root req route
  let req1 := pre.1
  let rr := optRun (chain.length + 1) chain req1 res 0
  match rr.2.2 with
  | none => (req1, rr.1, pre.2 ++ rr.2.1)
  | some e =>
    match root.errorRoute with
    | some eh =>
      let res1 := if eh.ehSend then { rr.1 with headersSent := true } else rr.1
      if eh.ehCallsNext && !res1.headersSent then
        (req1, { res1 with headersSent := true },
         pre.2 ++ rr.2.1 ++ [Ev.errCall eh.id e, Ev.send500 e])
      else (req1, res1, pre.2 ++ rr.2.1 ++ [Ev.errCall eh.id e])
    | none =>
      (req1, { rr.1 with headersSent := true }, pre.2 ++ rr.2.1 ++ [Ev.send500 e])

/-- Modelled from the spec: the Request and Response constructors live in
request.js / response.js, which are not among the provided sources.  Per the
spec's request-scoped state (a fresh request starts with the active relative
path equal to the full request path, an empty mount stack, and no processed
params) and its cancellation/response model (un-aborted, nothing sent). -/
def mkRequest (method path query : String) : Req :=
  { method := method, path := path, urlQuery := query, opPath := path,
    url := path ++ query, stack := [], gotParams := [], params := [],
    route := none }

def freshRes : Res := { aborted := false, headersSent := false }

/-! ## Concrete registration scenarios used by the theorems.

The global route-key counter starts at 0 per process; each scenario threads
it explicitly in registration order, as the source's module-level routeKey
does.  Routers are built with caseSensitive = true, the default setting of an
Application (defaultSettings in utils.js), resolved through the
parent-delegating settings lookup. -/

/-- A terminal handler with the given identity and observable behaviour. -/
def fnOf (i : Nat) (a : HAct) : JsFn :=
  { id := i, arity := 3, send := false, abort := false, act := a,
    ehSend := false, ehCallsNext := false }

/-- An arity-4 error-handling middleware that writes a response and does not
invoke its continuation. -/
def ehOf (i : Nat) : JsFn :=
  { id := i, arity := 4, send := false, abort := false, act := .noCall,
    ehSend := true, ehCallsNext := false }

/-- C1 scenario: sub.get('/users', h1) with h1 calling next();
app.use('/api', sub); app.get('/api/users', h2).  At the registration of the
literal route GET /api/users the root table holds only the mount entry. -/
def oneSub : RouterObj :=
  .mk (createRoute "GET" [.str "/users"] [.fn (fnOf 1 .callNext)] false 0) [] none true

def oneUseEntries : List RouteEntry :=
  createRoute "USE" [.str "/api"] [.sub oneSub] false 1

def oneNewEntries : List RouteEntry :=
  createRoute "GET" [.str "/api/users"] [.fn (fnOf 2 .noCall)] false 2

def oneApp : RouterObj := .mk (oneUseEntries ++ oneNewEntries) [] none true

def oneNewRoute : RouteEntry := oneNewEntries.getD 0 defEntry

def oneChain : List RouteEntry := optimizedChain oneNewRoute oneUseEntries

/-- C2 scenario: app.get('/a', h1, h2) with h1 calling next('route');
app.use(mw); app.get('/a', h3). -/
def twoApp : RouterObj :=
  .mk (createRoute "GET" [.str "/a"] [.fn (fnOf 1 .callRoute), .fn (fnOf 2 .noCall)] false 0 ++
       createRoute "USE" [.str ""] [.fn (fnOf 5 .callNext)] false 2 ++
       createRoute "GET" [.str "/a"] [.fn (fnOf 3 .noCall)] false 3)
    [] none true

/-- C4 scenario: sub.get('/users', h1); app.use('/api', sub); app.use(mw3). -/
def fourSub : RouterObj :=
  .mk (createRoute "GET" [.str "/users"] [.fn (fnOf 1 .noCall)] false 0) [] none true

def fourApp : RouterObj :=
  .mk (createRoute "USE" [.str "/api"] [.sub fourSub] false 1 ++
       createRoute "USE" [.str ""] [.fn (fnOf 3 .noCall)] false 2)
    [] none true

/-- C7 scenario: sub.get('/:id', h11); sub.param('id', hook 8);
app.use('/:id', mw10) with mw10 calling next(); app.use('/:id', sub);
app.param('id', hook 7); app.param('id', hook 9). -/
def sevenSub : RouterObj :=
  .mk (createRoute "GET" [.str "/:id"] [.fn (fnOf 11 .noCall)] false 0)
    [("id", [8])] none true

def sevenApp : RouterObj :=
  .mk (createRoute "USE" [.str "/:id"] [.fn (fnOf 10 .callNext)] false 1 ++
       createRoute "USE" [.str "/:id"] [.sub sevenSub] false 2)
    [("id", [7, 9])] none true

/-- C8 scenarios: a handler at GET /e that signals next('boom'), followed by
another GET /e handler; with and without an error handler; a throwing
variant; and a mounted sub-router owning its own error handler. -/
def eightTable : List RouteEntry :=
  createRoute "GET" [.str "/e"] [.fn (fnOf 6 (.callErr "boom"))] false 0 ++
  createRoute "GET" [.str "/e"] [.fn (fnOf 12 .noCall)] false 1

def eightAppWith : RouterObj := .mk eightTable [] (some (ehOf 20)) true

def eightAppWithout : RouterObj := .mk eightTable [] none true

def eightAppThrow : RouterObj :=
  .mk (createRoute "GET" [.str "/e"] [.fn (fnOf 6 (.throwE "boom"))] false 0) [] none true

def eightSub : RouterObj :=
  .mk (createRoute "GET" [.str "/x"] [.fn (fnOf 6 (.callErr "boom"))] false 0)
    [] (some (ehOf 21)) true

def eightNested : RouterObj :=
  .mk (createRoute "USE" [.str "/s"] [.sub eightSub] false 1) [] (some (ehOf 20)) true

/-! ## C1: optimized flattened dispatch versus the generic walk -/

/-- C1: the claim that for every literal route on the root router (case
sensitive, native method) the flattened native handler is observationally
equivalent to the generic walk is FALSE, and the code contradicts the
stated intent of its own optimizer.  Counterexample: sub.get('/users', h1)
(h1 calls next()); app.use('/api', sub); app.get('/api/users', h2).  The
registration of GET /api/users satisfies every optimization condition, yet
the flattened chain contains only h2, because #optimizeRoute compares the
sub-router's entries against the mount entry's method ('ALL') and mount path
('/api') instead of the registered route's method and remaining path suffix;
the generic walk invokes h1 (on the stripped path /users) and then h2. -/
theorem optimizer_flatten_misses_subrouter_handlers :
    optTrigger true true "GET" oneNewRoute = true ∧
    (runOptimized oneApp oneChain oneNewRoute
        (mkRequest "GET" "/api/users" "") freshRes).2.2 =
      [Ev.call 2 "/api/users" []] ∧
    (walkFrom 20 oneApp (mkRequest "GET" "/api/users" "") freshRes 0).2.2.2 =
      [Ev.call 1 "/users" [], Ev.call 2 "/api/users" []] ∧
    (runOptimized oneApp oneChain oneNewRoute
        (mkRequest "GET" "/api/users" "") freshRes).2.2 ≠
      (walkFrom 20 oneApp (mkRequest "GET" "/api/users" "") freshRes 0).2.2.2 := by
  refine ⟨by decide, by decide, by decide, by decide⟩

/-! ## C3: skipToKey assignment in createRoute -/

theorem crPaths_skipKey (method : String) (sk : Nat) (cb : CallbackV)
    (strict : Bool) :
    ∀ (ps : List PathArg) (key : Nat) (e : RouteEntry),
      e ∈ crPaths method sk cb strict ps key → e.routeSkipKey = sk := by
  intro ps
  induction ps with
  | nil => intro key e he; simp [crPaths] at he
  | cons p ps ih =>
    intro key e he
    simp only [crPaths, List.mem_cons] at he
    rcases he with h | h
    · subst h; rfl
    · exact ih (key + 1) e h

theorem crCbs_skipKey (method : String) (paths : List PathArg) (sk : Nat)
    (strict : Bool) :
    ∀ (cs : List CallbackV) (key : Nat) (e : RouteEntry),
      e ∈ crCbs method paths sk strict cs key → e.routeSkipKey = sk := by
  intro cs
  induction cs with
  | nil => intro key e he; simp [crCbs] at he
  | cons c cs ih =>
    intro key e he
    simp only [crCbs, List.mem_append] at he
    rcases he with h | h
    · exact crPaths_skipKey method sk c strict paths key e h
    · exact ih (key + paths.length) e h

theorem crPaths_length (method : String) (sk : Nat) (cb : CallbackV)
    (strict : Bool) :
    ∀ (ps : List PathArg) (key : Nat),
      (crPaths method sk cb strict ps key).length = ps.length := by
  intro ps
  induction ps with
  | nil => intro key; rfl
  | cons p ps ih => intro key; simp [crPaths, ih]

theorem crPaths_key (method : String) (sk : Nat) (cb : CallbackV)
    (strict : Bool) :
    ∀ (ps : List PathArg) (key n : Nat), n < ps.length →
      ((crPaths method sk cb strict ps key).getD n defEntry).routeKey = key + n := by
  intro ps
  induction ps with
  | nil => intro key n h; simp at h
  | cons p ps ih =>
    intro key n h
    match n with
    | 0 => rfl
    | n + 1 =>
      have := ih (key + 1) n (by simpa using Nat.lt_of_succ_lt_succ h)
      simpa [crPaths, Nat.add_assoc, Nat.add_comm 1 n] using this

theorem crCbs_length (method : String) (paths : List PathArg) (sk : Nat)
    (strict : Bool) :
    ∀ (cs : List CallbackV) (key : Nat),
      (crCbs method paths sk strict cs key).length = cs.length * paths.length := by
  intro cs
  induction cs with
  | nil => intro key; simp [crCbs]
  | cons c cs ih =>
    intro key
    simp [crCbs, crPaths_length, ih, Nat.succ_mul, Nat.add_comm]

theorem crCbs_key (method : String) (paths : List PathArg) (sk : Nat)
    (strict : Bool) :
    ∀ (cs : List CallbackV) (key n : Nat), n < cs.length * paths.length →
      ((crCbs method paths sk strict cs key).getD n defEntry).routeKey = key + n := by
  intro cs
  induction cs with
  | nil => intro key n h; simp at h
  | cons c cs ih =>
    intro key n h
    by_cases hn : n < paths.length
    · rw [crCbs]
      rw [List.getD_append _ _ defEntry n (by rw [crPaths_length]; exact hn)]
      exact crPaths_key method sk c strict paths key n hn
    · rw [crCbs]
      push_neg at hn
      have hlen : (crPaths method sk c strict paths key).length = paths.length :=
        crPaths_length method sk c strict paths key
      rw [List.getD_append_right _ _ defEntry n (by rw [hlen]; exact hn)]
      rw [hlen]
      have h2 : n < cs.length * paths.length + paths.length := by
        have := h
        simp only [List.length_cons, Nat.add_mul, Nat.one_mul] at this
        omega
      have hrec := ih (key + paths.length) (n - paths.length) (by omega)
      rw [hrec]
      omega

/-- C3 counterexample: two callbacks registered together for the two paths
/p and /q.  All four entries share skipToKey 1, but the last entry registered
in the call has sequenceKey 3, not 1: the claimed equality fails as soon as
more than one path is passed. -/
theorem createRoute_skipKey_counterexample :
    (createRoute "GET" [.str "/p", .str "/q"]
        [.fn (fnOf 1 .noCall), .fn (fnOf 2 .noCall)] false 0).map
        (fun e => (e.routeKey, e.routeSkipKey)) = [(0, 1), (1, 1), (2, 1), (3, 1)] ∧
    ((createRoute "GET" [.str "/p", .str "/q"]
        [.fn (fnOf 1 .noCall), .fn (fnOf 2 .noCall)] false 0).getLast?).map
        RouteEntry.routeKey ≠ some 1 := by
  refine ⟨by decide, by decide⟩

/-- C3 amended: every entry created by one createRoute call receives the same
skipToKey, namely the pre-call counter value plus the number of callbacks
minus one; this equals the sequenceKey of the last entry registered in the
call exactly when a single path is passed (for any number of callbacks), and
not in general for multiple paths. -/
theorem createRoute_skipKey :
    ∀ (method : String) (paths : List PathArg) (cbs : List CallbackV)
      (strict : Bool) (k : Nat),
      (∀ e ∈ createRoute method paths cbs strict k,
        e.routeSkipKey = k + cbs.length - 1) ∧
      (paths.length = 1 → ∀ n, n + 1 = (createRoute method paths cbs strict k).length →
        ((createRoute method paths cbs strict k).getD n defEntry).routeKey =
          k + cbs.length - 1) := by
  intro method paths cbs strict k
  constructor
  · intro e he
    exact crCbs_skipKey method paths (k + cbs.length - 1) strict cbs k e he
  · intro h1 n hn
    have hlen : (createRoute method paths cbs strict k).length = cbs.length := by
      unfold createRoute
      rw [crCbs_length, h1, Nat.mul_one]
    rw [hlen] at hn
    unfold createRoute
    rw [crCbs_key method paths (k + cbs.length - 1) strict cbs k n
      (by rw [h1, Nat.mul_one]; omega)]
    omega

/-- C3 amended, witnessed: a single-path, two-callback registration whose
last entry's sequenceKey is the shared skipToKey. -/
theorem createRoute_skipKey_witness :
    ((createRoute "GET" [.str "/a"] [.fn (fnOf 1 .noCall), .fn (fnOf 2 .noCall)]
        false 5).getD 1 defEntry).routeKey = 5 + 2 - 1 :=
  (createRoute_skipKey "GET" [.str "/a"]
    [.fn (fnOf 1 .noCall), .fn (fnOf 2 .noCall)] false 5).2 (by decide) 1 (by decide)

/-! ## C5: needsConversionToRegex -/

/-- C5 counterexample: the literal template '/*' contains '*' yet
needsConversionToRegex returns false for it. -/
theorem needsConversion_counterexample :
    needsConversionToRegex (.str "/*") = false ∧ '*' ∈ "/*".toList := by
  refine ⟨by decide, by decide⟩

/-- C5 amended: for every template string other than the special-cased
literal '/*', needsConversionToRegex is true exactly when the template
contains one of the ten special characters (and it is false on every
pre-built RegExp). -/
theorem needsConversion_iff (s : String) (hne : s ≠ "/*") :
    needsConversionToRegex (.str s) = true ↔
      ∃ c ∈ s.toList,
        c ∈ ['*', '?', '+', '(', ')', ':', '\x7b', '\x7d', '[', ']'] := by
  simp only [needsConversionToRegex]
  rw [if_neg hne]
  simp only [List.contains, Bool.or_eq_true, List.elem_iff]
  constructor
  · intro h
    rcases h with ((((((((h | h) | h) | h) | h) | h) | h) | h) | h) | h <;>
      exact ⟨_, h, by simp⟩
  · rintro ⟨c, hc, hmem⟩
    simp only [List.mem_cons, List.not_mem_nil, or_false] at hmem
    rcases hmem with rfl | rfl | rfl | rfl | rfl | rfl | rfl | rfl | rfl | rfl <;> tauto

theorem needsConversion_iff_witness :
    ("/:id" ≠ "/*") ∧
      (needsConversionToRegex (.str "/:id") = true ↔
        ∃ c ∈ "/:id".toList,
          c ∈ ['*', '?', '+', '(', ')', ':', '\x7b', '\x7d', '[', ']']) :=
  ⟨by decide, needsConversion_iff "/:id" (by decide)⟩

/-! ## C6: two-parameter templates -/

/-- C6: compiling the template /:a/:b and matching /x/y yields the named
captures a = x and b = y (each parameter matching one or more non-slash
characters), while /x does not match at all (no match, no captures). -/
theorem twoParam_template_captures :
    extractParams (patternToRegexRE "/:a/:b" false) "/x/y" =
      [("a", some "x"), ("b", some "y")] ∧
    reExec (patternToRegexRE "/:a/:b" false) "/x".toList = none ∧
    extractParams (patternToRegexRE "/:a/:b" false) "/x" = [] := by
  refine ⟨by decide, by decide, by decide⟩

/-! ## C9: the abort flag stops the generic walk -/

/-- C9: at every dispatch step of the generic walk, if the response has been
aborted by the peer, no route entry (and no handler) is invoked and the walk
terminates immediately reporting the not-handled outcome, leaving the request
and response state untouched. -/
theorem walk_stops_on_abort (f : Nat) (ro : RouterObj) (req : Req) (res : Res)
    (i : Nat) (h : res.aborted = true) :
    walkFrom (f + 1) ro req res i = (some false, req, res, []) := by
  by_cases hi : i < ro.routes.length <;> simp [walkFrom, h, hi]

theorem walk_stops_on_abort_witness :
    walkFrom 1 twoApp (mkRequest "GET" "/a" "")
      { aborted := true, headersSent := false } 0 =
      (some false, mkRequest "GET" "/a" "",
        { aborted := true, headersSent := false }, []) :=
  walk_stops_on_abort 0 twoApp (mkRequest "GET" "/a" "")
    { aborted := true, headersSent := false } 0 rfl

/-! ## C10: params only for string paths with ':' compiled to a RegExp -/

/-- C10: preprocessing extracts params and runs hooks only when the matched
entry's original path is a string containing ':' and its pattern is a RegExp;
in every other case - in particular for a route registered with a pre-built
RegExp pattern object, whatever named groups it has - req.params is set to
the empty object and no param hook runs. -/
theorem preprocess_params_only_for_string_colon_regex
    (ro : RouterObj) (req : Req) (route : RouteEntry)
    (h : ∀ (s : String) (r0 : RE), route.path = .str s → route.pattern = .re r0 →
      s.toList.contains ':' = false) :
    preprocess ro req route =
      ({ req with route := some route.routeKey, params := [] }, []) := by
  cases hp : route.path with
  | re r0 => cases hq : route.pattern <;> simp [preprocess, hp, hq]
  | str s =>
    cases hq : route.pattern with
    | str s2 => simp [preprocess, hp, hq]
    | re r0 =>
      have h3 : ':' ∉ s.data := by simpa using h s r0 hp hq
      simp [preprocess, hp, hq, h3]

theorem preprocess_params_only_witness :
    preprocess twoApp (mkRequest "GET" "/a" "")
      (mkRoute "GET" (.re (.group (some "id") (.plus false (.cls true [.one '/']))))
        (.fn (fnOf 1 .noCall)) 0 0) =
      ({ mkRequest "GET" "/a" "" with route := some 0, params := [] }, []) :=
  preprocess_params_only_for_string_colon_regex twoApp (mkRequest "GET" "/a" "")
    (mkRoute "GET" (.re (.group (some "id") (.plus false (.cls true [.one '/']))))
      (.fn (fnOf 1 .noCall)) 0 0)
    (by intro s r0 hs _; simp [mkRoute, RouteEntry.path] at hs)


/-! ## C2: the route-skip continuation in the generic walk -/

theorem scanSkipF_first : ∀ (n i j : Nat) (routes : List RouteEntry) (key : Nat),
    scanSkipF routes key i n = some j →
    i ≤ j ∧ j < routes.length ∧ (routes.getD j defEntry).routeKey = key ∧
      ∀ k, i ≤ k → k < j → (routes.getD k defEntry).routeKey ≠ key := by
  intro n
  induction n with
  | zero => intro i j routes key h; simp [scanSkipF] at h
  | succ n ih =>
    intro i j routes key h
    rw [scanSkipF] at h
    by_cases hi : i < routes.length
    · rw [if_pos hi] at h
      by_cases hk : (routes.getD i defEntry).routeKey = key
      · rw [if_pos hk] at h
        cases h
        exact ⟨Nat.le_refl _, hi, hk, fun k h1 h2 => by omega⟩
      · rw [if_neg hk] at h
        obtain ⟨h1, h2, h3, h4⟩ := ih (i + 1) j routes key h
        refine ⟨by omega, h2, h3, ?_⟩
        intro k hk1 hk2
        rcases Nat.eq_or_lt_of_le hk1 with rfl | hlt
        · exact hk
        · exact h4 k (by omega) hk2
    · rw [if_neg hi] at h; cases h

/-- C2: when a terminal handler invokes its continuation with 'route', the
cursor jumps forward to the first entry (from the current one on) whose
routeKey equals the current entry's routeSkipKey, and the walk resumes with
the entry after it, so the remainder of the handler group is skipped while
later independently registered entries still execute in order.  Conjuncts:
the skip scan finds exactly the first such entry; one dispatch step with a
route-signalling handler continues the walk at the position after the found
entry; and in the concrete scenario get('/a', h1, h2) (h1 signalling
'route'), use(mw), get('/a', h3), the request GET /a runs h1, mw and h3 and
skips h2. -/
theorem route_skip_semantics :
    (∀ (routes : List RouteEntry) (key i j : Nat),
      scanSkip routes key i = some j →
      i ≤ j ∧ j < routes.length ∧ (routes.getD j defEntry).routeKey = key ∧
        ∀ k, i ≤ k → k < j → (routes.getD k defEntry).routeKey ≠ key) ∧
    (∀ (f : Nat) (ro : RouterObj) (req : Req) (res : Res) (i j : Nat) (fn : JsFn),
      i < ro.routes.length →
      res.aborted = false →
      (((ro.routes.getD i defEntry).allFlag ||
          (ro.routes.getD i defEntry).method == req.method) &&
          pathMatches ro (ro.routes.getD i defEntry) req) = true →
      (ro.routes.getD i defEntry).callback = .fn fn →
      fn.act = .callRoute →
      scanSkip ro.routes (ro.routes.getD i defEntry).routeSkipKey i = some j →
      walkFrom (f + 1) ro req res i =
        (let pre := preprocess ro req (ro.routes.getD i defEntry)
         let res1 : Res := { aborted := res.aborted || fn.abort,
                             headersSent := res.headersSent || fn.send }
         let r2 := walkFrom f ro pre.1 res1 (j + 1)
         (r2.1, r2.2.1, r2.2.2.1,
          pre.2 ++ Ev.call fn.id pre.1.opPath pre.1.params :: r2.2.2.2))) ∧
    (walkFrom 20 twoApp (mkRequest "GET" "/a" "") freshRes 0).2.2.2 =
      [Ev.call 1 "/a" [], Ev.call 5 "/a" [], Ev.call 3 "/a" []] := by
  refine ⟨?_, ?_, by decide⟩
  · intro routes key i j h
    exact scanSkipF_first (routes.length + 1 - i) i j routes key h
  · intro f ro req res i j fn hi hab hm hcb hact hs
    simp only [walkFrom]
    rw [if_pos hi]
    simp only [hab, Bool.false_eq_true, if_false, hm, if_true, hcb, hact, hs]

theorem route_skip_semantics_witness :
    walkFrom 20 twoApp (mkRequest "GET" "/a" "") freshRes 0 =
      (let pre := preprocess twoApp (mkRequest "GET" "/a" "")
        (twoApp.routes.getD 0 defEntry)
       let res1 : Res := { aborted := false, headersSent := false }
       let r2 := walkFrom 19 twoApp pre.1 res1 2
       (r2.1, r2.2.1, r2.2.2.1,
        pre.2 ++ Ev.call 1 pre.1.opPath pre.1.params :: r2.2.2.2)) :=
  route_skip_semantics.2.1 19 twoApp (mkRequest "GET" "/a" "") freshRes 0 1
    (fnOf 1 .callRoute) (by decide) rfl (by decide) rfl rfl (by decide)

/-! ## C4: mounting a sub-router -/

/-- C4: a sub-router mounted at /api containing GET /users handles
GET /api/users (the mount prefix is stripped before the sub-table is walked:
the handler observes the relative path /users), does not receive GET /users
at all (no handler of the scenario's sub-router is invoked; only the
subsequent catch-all middleware runs, still seeing /users), and when the
sub-router declines (GET /api/other), the mount path is popped, the relative
path restored to the full path, and the parent's walk continues at the entry
after the mount point (the later middleware observes /api/other).  The final
conjunct states the pop/restore/continue step in general: whenever a matching
mount entry's sub-walk reports not handled, the walk continues at i + 1 on
the request with the mount stack popped and the relative path recomputed from
the remaining stack - while the promise outcome is already settled to true at
the decline (calledNext stays false in the router branch, so the source's
trailing if(!calledNext) resolve(true) fires before the loop continues). -/
theorem mount_dispatch_semantics :
    ((walkFrom 20 fourApp (mkRequest "GET" "/api/users" "") freshRes 0).1 = some true ∧
     (walkFrom 20 fourApp (mkRequest "GET" "/api/users" "") freshRes 0).2.2.2 =
       [Ev.call 1 "/users" []]) ∧
    (walkFrom 20 fourApp (mkRequest "GET" "/users" "") freshRes 0).2.2.2 =
      [Ev.call 3 "/users" []] ∧
    (walkFrom 20 fourApp (mkRequest "GET" "/api/other" "") freshRes 0).2.2.2 =
      [Ev.call 3 "/api/other" []] ∧
    (∀ (f : Nat) (ro subRo : RouterObj) (req : Req) (res : Res) (i : Nat)
       (req3 : Req) (res3 : Res) (evs1 : List Ev),
      i < ro.routes.length →
      res.aborted = false →
      (((ro.routes.getD i defEntry).allFlag ||
          (ro.routes.getD i defEntry).method == req.method) &&
          pathMatches ro (ro.routes.getD i defEntry) req) = true →
      (ro.routes.getD i defEntry).callback = .sub subRo →
      walkFrom f subRo
          (let pre := preprocess ro req (ro.routes.getD i defEntry)
           let stack2 := pre.1.stack ++ [pathStrOf (ro.routes.getD i defEntry).path]
           let op2 := stripMount (joinAll stack2) pre.1.path
           { pre.1 with stack := stack2, opPath := op2, url := op2 ++ pre.1.urlQuery })
          res 0 = (some false, req3, res3, evs1) →
      walkFrom (f + 1) ro req res i =
        (let stack4 := req3.stack.dropLast
         let op4 := if stack4.isEmpty then req3.path
                    else stripMount (joinAll stack4) req3.path
         let req4 := { req3 with
                       stack := stack4, opPath := op4, url := op4 ++ req3.urlQuery }
         let r2 := walkFrom f ro req4 res3 (i + 1)
         (some true, r2.2.1, r2.2.2.1,
          (preprocess ro req (ro.routes.getD i defEntry)).2 ++ evs1 ++ r2.2.2.2))) := by
  refine ⟨⟨by decide, by decide⟩, by decide, by decide, ?_⟩
  intro f ro subRo req res i req3 res3 evs1 hi hab hm hcb hsub
  simp only [walkFrom]
  rw [if_pos hi]
  simp only [hab, Bool.false_eq_true, if_false, hm, if_true, hcb]
  simp only at hsub
  rw [hsub]

theorem mount_dispatch_semantics_witness :
    walkFrom 20 fourApp (mkRequest "GET" "/api/other" "") freshRes 0 =
      (let req3 : Req :=
        { mkRequest "GET" "/api/other" "" with
          route := some 1, stack := ["/api"], opPath := "/other", url := "/other" }
       let stack4 := req3.stack.dropLast
       let op4 := if stack4.isEmpty then req3.path
                  else stripMount (joinAll stack4) req3.path
       let req4 := { req3 with
                     stack := stack4, opPath := op4, url := op4 ++ req3.urlQuery }
       let r2 := walkFrom 19 fourApp req4 freshRes 1
       (some true, r2.2.1, r2.2.2.1, [] ++ [] ++ r2.2.2.2)) :=
  mount_dispatch_semantics.2.2.2 19 fourApp fourSub
    (mkRequest "GET" "/api/other" "") freshRes 0
    { mkRequest "GET" "/api/other" "" with
      route := some 1, stack := ["/api"], opPath := "/other", url := "/other" }
    freshRes [] (by decide) rfl (by decide) rfl (by decide)

/-! ## C7: param hooks fire once per request, in order, before handlers -/

/-- Events that are invocations of a hook for the parameter name n. -/
def hookEvsFor (n : String) (evs : List Ev) : List Ev :=
  evs.filter (fun ev =>
    match ev with
    | .paramHook _ m _ => m == n
    | _ => false)

theorem runHooks_no_retrigger (hs : List (String × List Nat)) (n : String) :
    ∀ (ps : List (String × Option String)) (got : List String),
      got.contains n = true →
      hookEvsFor n (runHooks hs ps got).2 = [] ∧
        (runHooks hs ps got).1.contains n = true := by
  intro ps
  induction ps with
  | nil => intro got h; exact ⟨rfl, h⟩
  | cons p ps ih =>
    intro got h
    obtain ⟨m, v⟩ := p
    cases hf : hooksFor hs m with
    | none => simp only [runHooks, hf]; exact ih got h
    | some hooks =>
      by_cases hgot : got.contains m
      · simp only [runHooks, hf, if_pos hgot]
        exact ih got h
      · simp only [runHooks, hf, if_neg hgot]
        have hmn : m ≠ n := by
          intro hEq; rw [hEq] at hgot; exact hgot h
        have h2 : (got ++ [m]).contains n = true := by
          simp only [List.contains, List.elem_iff] at h ⊢
          exact List.mem_append_left _ h
        obtain ⟨ih1, ih2⟩ := ih (got ++ [m]) h2
        refine ⟨?_, ih2⟩
        simp only [hookEvsFor, List.filter_append] at ih1 ⊢
        simp only [ih1, List.append_nil]
        rw [List.filter_eq_nil_iff]
        intro ev hev
        simp only [List.mem_map] at hev
        obtain ⟨hid, _, rfl⟩ := hev
        simpa using hmn

/-- C7: param hooks for a name run sequentially in registration order before
the matched route's handler, and exactly once per request.  First conjunct:
once a name is in the request's processed set, preprocessing any further
route (whatever router it belongs to, including nested mounted routers whose
pattern captures the same name) emits no hook invocation for it, and the name
stays marked.  Second conjunct, the concrete nested scenario: hooks 7 and 9
(app.param('id', ...), registration order) fire once each, in order, before
the middleware and before the nested sub-router's handler; the sub-router's
own route /:id captures id again (value 7 instead of 42) yet neither the
app's hooks nor the sub-router's hook 8 fire again. -/
theorem param_hooks_once_per_request :
    (∀ (ro : RouterObj) (req : Req) (route : RouteEntry) (n : String),
      req.gotParams.contains n = true →
      hookEvsFor n (preprocess ro req route).2 = [] ∧
        (preprocess ro req route).1.gotParams.contains n = true) ∧
    walkFrom 20 sevenApp (mkRequest "GET" "/42/7" "") freshRes 0 =
      (some true,
       { method := "GET", path := "/42/7", urlQuery := "", opPath := "/7",
         url := "/7", stack := ["/:id"], gotParams := ["id"],
         params := [("id", some "7")], route := some 0 },
       freshRes,
       [Ev.paramHook 7 "id" (some "42"), Ev.paramHook 9 "id" (some "42"),
        Ev.call 10 "/42/7" [("id", some "42")],
        Ev.call 11 "/7" [("id", some "7")]]) := by
  refine ⟨?_, by decide⟩
  intro ro req route n h
  cases hp : route.path with
  | re r0 =>
    cases hq : route.pattern <;> simp only [preprocess, hp, hq] <;> exact ⟨rfl, h⟩
  | str s =>
    cases hq : route.pattern with
    | str s2 => simp only [preprocess, hp, hq]; exact ⟨rfl, h⟩
    | re r0 =>
      by_cases hcolon : s.toList.contains ':' = true
      · have hrh := runHooks_no_retrigger ro.paramHooks n
          (extractParams r0
            (if req.stack.isEmpty then req.path
             else stripMount (joinAll req.stack) req.path))
          req.gotParams h
        simp only [preprocess, hp, hq]
        rw [if_pos hcolon]
        exact ⟨hrh.1, hrh.2⟩
      · simp only [preprocess, hp, hq]
        rw [if_neg hcolon]
        exact ⟨rfl, h⟩

theorem param_hooks_once_witness :
    hookEvsFor "id"
        (preprocess sevenApp
          { mkRequest "GET" "/42/7" "" with gotParams := ["id"] }
          (sevenApp.routes.getD 0 defEntry)).2 = [] ∧
      ((preprocess sevenApp
          { mkRequest "GET" "/42/7" "" with gotParams := ["id"] }
          (sevenApp.routes.getD 0 defEntry)).1.gotParams.contains "id") = true :=
  param_hooks_once_per_request.1 sevenApp
    { mkRequest "GET" "/42/7" "" with gotParams := ["id"] }
    (sevenApp.routes.getD 0 defEntry) "id" (by decide)

/-! ## C8: error propagation to the nearest router's error handler -/

/-- C8: a terminal handler that invokes its continuation with a truthy value
other than 'route' (or throws) has the error delivered to the current
(nearest enclosing) router's single error handler - the function of declared
arity 4 that use() recognises and stores - invoked with the error; with no
such handler the generic 500 failure page is produced and the walk stops.
Conjuncts: use() with a lone arity-4 function sets errorRoute and registers
no route; one dispatch step with an error-signalling handler equals
genericError of the current router; genericError invokes the error handler
(recording the error) and resolves when one is registered, and otherwise
emits the 500 page with headersSent; concretely, with an error handler the
trace is the handler then errCall and the later matching route never runs,
without one the trace ends in send500, a throwing handler behaves alike, and
in a mounted sub-router owning an error handler the sub-router's handler (id
21), not the parent's (id 20), receives the error. -/
theorem error_to_nearest_router_handler :
    ((useReg eightAppWithout (.cbArg (.fn (ehOf 20))) [] false 2).1.errorRoute =
        some (ehOf 20) ∧
     (useReg eightAppWithout (.cbArg (.fn (ehOf 20))) [] false 2).1.routes =
        eightAppWithout.routes) ∧
    (∀ (f : Nat) (ro : RouterObj) (req : Req) (res : Res) (i : Nat)
       (fn : JsFn) (e : String),
      i < ro.routes.length →
      res.aborted = false →
      (((ro.routes.getD i defEntry).allFlag ||
          (ro.routes.getD i defEntry).method == req.method) &&
          pathMatches ro (ro.routes.getD i defEntry) req) = true →
      (ro.routes.getD i defEntry).callback = .fn fn →
      fn.act = .callErr e →
      walkFrom (f + 1) ro req res i =
        (let pre := preprocess ro req (ro.routes.getD i defEntry)
         genericError ro e true pre.1
           { aborted := res.aborted || fn.abort,
             headersSent := res.headersSent || fn.send }
           (pre.2 ++ [Ev.call fn.id pre.1.opPath pre.1.params]))) ∧
    (∀ (ro : RouterObj) (e : String) (cn : Bool) (req : Req) (res : Res)
       (evs : List Ev),
      (∀ eh, ro.errorRoute = some eh →
        (genericError ro e cn req res evs).2.2.2 = evs ++ [Ev.errCall eh.id e] ∧
        ∃ b, (genericError ro e cn req res evs).1 = some b) ∧
      (ro.errorRoute = none →
        (genericError ro e cn req res evs).2.2.2 = evs ++ [Ev.send500 e] ∧
        (genericError ro e cn req res evs).2.2.1.headersSent = true)) ∧
    ((walkFrom 20 eightAppWith (mkRequest "GET" "/e" "") freshRes 0).2.2.2 =
        [Ev.call 6 "/e" [], Ev.errCall 20 "boom"] ∧
     (walkFrom 20 eightAppWith (mkRequest "GET" "/e" "") freshRes 0).1 = some true) ∧
    ((walkFrom 20 eightAppWithout (mkRequest "GET" "/e" "") freshRes 0).2.2.2 =
        [Ev.call 6 "/e" [], Ev.send500 "boom"] ∧
     (walkFrom 20 eightAppWithout (mkRequest "GET" "/e" "") freshRes 0).2.2.1.headersSent =
        true) ∧
    ((walkFrom 20 eightAppThrow (mkRequest "GET" "/e" "") freshRes 0).2.2.2 =
        [Ev.call 6 "/e" [], Ev.send500 "boom"] ∧
     (walkFrom 20 eightAppThrow (mkRequest "GET" "/e" "") freshRes 0).1 = some true) ∧
    (walkFrom 20 eightNested (mkRequest "GET" "/s/x" "") freshRes 0).2.2.2 =
      [Ev.call 6 "/x" [], Ev.errCall 21 "boom"] := by
  refine ⟨⟨by decide, rfl⟩, ?_, ?_, ⟨by decide, by decide⟩,
    ⟨by decide, by decide⟩, ⟨by decide, by decide⟩, by decide⟩
  · intro f ro req res i fn e hi hab hm hcb hact
    simp only [walkFrom]
    rw [if_pos hi]
    simp only [hab, Bool.false_eq_true, if_false, hm, if_true, hcb, hact]
  · intro ro e cn req res evs
    constructor
    · intro eh heh
      unfold genericError
      rw [heh]
      constructor
      · rfl
      · by_cases hc : eh.ehCallsNext <;> simp [hc]
    · intro heh
      unfold genericError
      rw [heh]
      by_cases hc : cn <;> simp [hc]

theorem error_to_nearest_router_handler_witness :
    walkFrom 20 eightAppWith (mkRequest "GET" "/e" "") freshRes 0 =
      (let pre := preprocess eightAppWith (mkRequest "GET" "/e" "")
        (eightAppWith.routes.getD 0 defEntry)
       genericError eightAppWith "boom" true pre.1
         { aborted := false, headersSent := false }
         (pre.2 ++ [Ev.call 6 pre.1.opPath pre.1.params])) :=
  error_to_nearest_router_handler.2.1 19 eightAppWith
    (mkRequest "GET" "/e" "") freshRes 0 (fnOf 6 (.callErr "boom")) "boom"
    (by decide) rfl (by decide) rfl rfl

end UX
